import Mathlib

/-!
# chromakey_test: one image through buffer → format → chromakey → buffersink

A shallow embedding of `src/main.cpp` and the properties of it that the
specification states.

Modelling conventions
* Every call into FFmpeg or the C++ runtime is an outcome read from a `World`
  record: the `int` a call returns, the pointer it yields (`Option`, `none` for
  `NULL`), the frame it fills.  The code under study is what `main.cpp` does with
  those outcomes.
* Declarations of the FFmpeg headers that the source uses without defining them
  (the value of `AV_PIX_FMT_YUVA420P`, the tables behind `av_get_pix_fmt_name`
  and `av_strerror`) are fields of `Lib`.
* `std::cerr` is the string written to it; `std::endl` is `"\n"`; an `int` is
  streamed, and converted by `std::to_string`, as its decimal text (`toString`
  on `Int`).  Progress messages on `std::cout` are not part of the model.
* A scoped owner (`std::unique_ptr` with its deleter, `BOOST_SCOPE_EXIT`) runs
  its release when the enclosing scope is left, on every path: `atScopeExit`.
* Allocation calls (`avcodec_alloc_context3`, `av_frame_alloc`,
  `avfilter_graph_alloc`) are taken to return a non-null object.
* The output file is what the stream `ofile` puts into it: `ostream_write` follows
  `std::ostream::write`, which writes nothing on a stream that is no longer good, and
  turns the stream bad when fewer characters than requested are put.
-/

namespace Chromakey

/-! ## Library declarations and data -/

/-- Header declarations used by the source whose definitions are not part of it. -/
structure Lib where
  /-- Value of the enumerator `AV_PIX_FMT_YUVA420P`. -/
  AV_PIX_FMT_YUVA420P : Int
  /-- Pixel format name table; `none` is a `NULL` result. -/
  av_get_pix_fmt_name : Int → Option String
  /-- Return value of `av_strerror` and the C string it leaves in the buffer. -/
  av_strerror : Int → Int × String

/-- Fields of `AVCodecParameters` that the source reads. -/
structure AVCodecParameters where
  codec_id : Int
  format : Int
  deriving DecidableEq, Repr

/-- Fields of `AVCodecContext` that the source writes. -/
structure AVCodecContext where
  skip_alpha : Int
  pix_fmt : Int
  sw_pix_fmt : Int
  deriving DecidableEq, Repr

/-- Fields of `AVFrame` that the source reads. -/
structure AVFrame where
  width : Int
  height : Int
  format : Int
  linesize : Nat → Int

/-- Outcomes of the external calls of one run. -/
structure World where
  avformat_open_input : Int
  av_find_best_stream : Int
  /-- The pointer `streams[idx]->codecpar`. -/
  codecpar : Option AVCodecParameters
  /-- Whether `avcodec_find_decoder` yields a non-null codec for a codec id. -/
  avcodec_find_decoder : Int → Bool
  /-- The context `avcodec_alloc_context3` hands out. -/
  avcodec_alloc_context3 : AVCodecContext
  /-- Return value and resulting context of `avcodec_parameters_to_context`. -/
  avcodec_parameters_to_context : AVCodecContext → AVCodecParameters → Int × AVCodecContext
  /-- Return value of `avcodec_open2`, which may depend on the context. -/
  avcodec_open2 : AVCodecContext → Int
  /-- The frame `av_frame_alloc` hands out. -/
  av_frame_alloc : AVFrame
  av_read_frame : Int
  avcodec_send_packet : Int
  /-- Return value of `avcodec_receive_frame` and the frame contents it leaves. -/
  avcodec_receive_frame : Int × AVFrame
  /-- Result of `ofile.is_open()` after constructing the output stream. -/
  ofile_is_open : Bool
  /-- Number of bytes the output file can still take during the write of plane `k`. -/
  ofile_room : Nat → Nat
  create_buffer : Int
  create_buffersink : Int
  create_format : Int
  create_chromakey : Int
  link_buffer_format : Int
  link_format_chromakey : Int
  link_chromakey_buffersink : Int
  avfilter_graph_config : Int
  av_buffersrc_add_frame_flags : Int
  /-- Return value of `av_buffersink_get_frame` and the frame contents it leaves. -/
  av_buffersink_get_frame : Int × AVFrame

/-! ## Text -/

/-- Whether `part` is an initial segment of `text`. -/
def startsWith : List Char → List Char → Bool
  | _, [] => true
  | [], _ :: _ => false
  | c :: text, d :: part => c == d && startsWith text part

/-- Whether `part` occurs in `text` as a contiguous run of characters. -/
def occursIn : List Char → List Char → Bool
  | [], part => startsWith [] part
  | c :: text, part => startsWith (c :: text) part || occursIn text part

/-- The text `text` contains `part` as a substring. -/
def Contains (text part : String) : Prop := occursIn text.data part.data = true

instance (text part : String) : Decidable (Contains text part) :=
  inferInstanceAs (Decidable (occursIn text.data part.data = true))

/-- Lines 25-39: `error_code_to_string`. -/
def error_code_to_string (lib : Lib) (nErrCode : Int) : String :=
  if (lib.av_strerror nErrCode).1 ≠ 0 then "[Unknown]" else (lib.av_strerror nErrCode).2

/-! ## `load_image` -/

/-- Library calls made while loading the image, in program order. -/
inductive LEvent where
  | avformat_open_input (path : String)
  | avformat_close_input
  | av_find_best_stream
  | avcodec_find_decoder (codec_id : Int)
  | avcodec_alloc_context3
  | avcodec_free_context
  | avcodec_parameters_to_context
  /-- The open call, with the decoder context as it is when the call is made. -/
  | avcodec_open2 (ctx : AVCodecContext)
  | av_frame_alloc
  | av_frame_free
  | av_init_packet
  | av_read_frame
  | av_packet_unref
  | avcodec_send_packet
  | avcodec_receive_frame
  deriving DecidableEq, Repr

/-- Release performed by a scoped owner: the deleter runs only on a held pointer. -/
def release (held : Bool) (e : LEvent) : List LEvent := if held then [e] else []

/-- Result of `open_input_format_context`. -/
structure OpenResult where
  ret : Bool
  /-- Whether `out_apFmtCtx` holds a context after the call. -/
  out_apFmtCtx : Bool
  cerr : String
  events : List LEvent

/-- Lines 42-73: `open_input_format_context`; `held` tells whether the caller's
pointer holds a context on entry. -/
def open_input_format_context (w : World) (pathAsset : String) (held : Bool) : OpenResult :=
  let reset := release held .avformat_close_input
  if w.avformat_open_input < 0 then
    { ret := false
      out_apFmtCtx := false
      cerr := "Could not open media at path: '" ++ pathAsset ++ "': "
                ++ toString w.avformat_open_input ++ "\n"
      events := reset ++ [.avformat_open_input pathAsset] }
  else
    { ret := true
      out_apFmtCtx := true
      cerr := ""
      events := reset ++ [.avformat_open_input pathAsset] }

/-- Result of `load_image`. -/
structure LoadResult where
  ret : Bool
  /-- The caller's frame pointer after the call. -/
  apAVFrame : Option AVFrame
  out_strError : String
  cerr : String
  events : List LEvent

/-- A `return` statement of `load_image`. -/
def LoadResult.done (ret : Bool) (apAVFrame : Option AVFrame) (out_strError : String) :
    LoadResult :=
  { ret := ret, apAVFrame := apAVFrame, out_strError := out_strError, cerr := "", events := [] }

/-- Statements executed before the rest of the body. -/
def LoadResult.after (cerr : String) (events : List LEvent) (rest : LoadResult) : LoadResult :=
  { rest with cerr := cerr ++ rest.cerr, events := events ++ rest.events }

/-- A scope whose owner releases when the scope is left by any `return`. -/
def LoadResult.atScopeExit (cleanup : List LEvent) (body : LoadResult) : LoadResult :=
  { body with events := body.events ++ cleanup }

/-- Move assignment to a `unique_ptr`: the pointer held before is released. -/
def unique_ptr_assign (old : Option AVFrame) (e : LEvent) : List LEvent :=
  release old.isSome e

/-- Lines 131-135: `if (!apAVFrame) apAVFrame = AVFrame_unique_ptr{av_frame_alloc(), ...}`;
the calls made and the frame the pointer holds afterwards. -/
def ensure_frame (w : World) (apAVFrame : Option AVFrame) : List LEvent × AVFrame :=
  match apAVFrame with
  | some f => ([], f)
  | none => (.av_frame_alloc :: unique_ptr_assign none .av_frame_free, w.av_frame_alloc)

/-- Lines 121-123: the assignments to `skip_alpha`, `pix_fmt` and `sw_pix_fmt`. -/
def force_pix_fmt (lib : Lib) (ctx : AVCodecContext) : AVCodecContext :=
  { ctx with
    skip_alpha := 0
    pix_fmt := lib.AV_PIX_FMT_YUVA420P
    sw_pix_fmt := lib.AV_PIX_FMT_YUVA420P }

/-- Lines 76-176: `load_image`. -/
def load_image (w : World) (lib : Lib) (apAVFrame : Option AVFrame) (pathAsset : String) :
    LoadResult :=
  let o := open_input_format_context w pathAsset false
  .after o.cerr o.events <|
  .atScopeExit (release o.out_apFmtCtx .avformat_close_input) <|
  if !o.ret then .done false apAVFrame "" else
  .after "" [.av_find_best_stream] <|
  if w.av_find_best_stream < 0 then
    .done false apAVFrame ("Failed to find video stream for '" ++ pathAsset ++ "'") else
  match w.codecpar with
  | none =>
    .done false apAVFrame "Failed to retrieve codec parameters: NULL codec parameters pointer"
  | some par =>
  .after "" [.avcodec_find_decoder par.codec_id] <|
  if !w.avcodec_find_decoder par.codec_id then
    .done false apAVFrame "Failed to find codec: NULL codec pointer" else
  .after "" [.avcodec_alloc_context3] <|
  .atScopeExit [.avcodec_free_context] <|
  let copied := w.avcodec_parameters_to_context w.avcodec_alloc_context3 par
  .after "" [.avcodec_parameters_to_context] <|
  if copied.1 < 0 then
    .done false apAVFrame
      ("Failed to copy codec parameters to decoder context: code=" ++ toString copied.1) else
  let ctx := force_pix_fmt lib copied.2
  .after "" [.avcodec_open2 ctx] <|
  if w.avcodec_open2 ctx < 0 then
    .done false apAVFrame ("Failed to open codec: code=" ++ toString (w.avcodec_open2 ctx)) else
  let alloc := ensure_frame w apAVFrame
  .after "" (alloc.1 ++ [.av_init_packet, .av_read_frame]) <|
  if w.av_read_frame < 0 then
    .done false (some alloc.2)
      ("Failed to read frame from file: code=" ++ toString w.av_read_frame) else
  .atScopeExit [.av_packet_unref] <|
  .after "" [.avcodec_send_packet] <|
  if w.avcodec_send_packet < 0 then
    .done false (some alloc.2)
      ("Failed to decode image from file: " ++ toString w.avcodec_send_packet) else
  .after "" [.avcodec_receive_frame] <|
  if w.avcodec_receive_frame.1 < 0 then
    .done false (some w.avcodec_receive_frame.2)
      ("Failed to decode image from file: code=" ++ toString w.avcodec_receive_frame.1) else
  .done true (some w.avcodec_receive_frame.2) ""

/-! ## `main` -/

/-- The four `AVFilterContext*` variables of `main`. -/
inductive Stage where
  | pBufferSrcCtx
  | pBufferSinkCtx
  | pFormatCtx
  | pChromaKeyCtx
  deriving DecidableEq, Repr

/-- Pipeline calls of `main` with their arguments and results, in program order.
Console output, allocations and the final `ofile.close()` are not pipeline calls. -/
inductive Call where
  | load_image (path : String) (ok : Bool)
  | ofstream_open (path : String) (ok : Bool)
  | avfilter_graph_create_filter (out : Stage) (filter name args : String) (ret : Int)
  | avfilter_link (src : Stage) (srcpad : Nat) (dst : Stage) (dstpad : Nat) (ret : Int)
  | avfilter_graph_config (ret : Int)
  | av_buffersrc_add_frame_flags (ret : Int)
  | av_buffersink_get_frame (ret : Int)
  /-- The plane loop of lines 387-390: plane index and requested byte count per write. -/
  | write_planes (writes : List (Nat × Int))
  deriving DecidableEq, Repr

/-- Observable result of one run of `main`. -/
structure Run where
  /-- Value returned by `main`; `none` when the run dereferences a null frame. -/
  exit : Option Int
  /-- Text written to `std::cerr`. -/
  cerr : String
  calls : List Call

/-- A `return` statement of `main`, after writing `cerr`. -/
def Run.done (code : Int) (cerr : String) : Run :=
  { exit := some code, cerr := cerr, calls := [] }

/-- Statements executed before the rest of `main`. -/
def Run.after (cerr : String) (calls : List Call) (rest : Run) : Run :=
  { rest with cerr := cerr ++ rest.cerr, calls := calls ++ rest.calls }

/-- Lines 231-241: the `std::ostringstream` holding the buffer source arguments.
Inserting a null `const char*` puts the stream in a failed state, after which
nothing more is inserted. -/
def bufferSrcArgs (lib : Lib) (f : AVFrame) : String :=
  let head := "width=" ++ toString f.width ++ ":height=" ++ toString f.height ++ ":pix_fmt="
  match lib.av_get_pix_fmt_name f.format with
  | some name => head ++ name ++ ":time_base=1/25"
  | none => head

/-- Reduction of an integer to the range of a 32-bit `int`. -/
def wrap32 (x : Int) : Int := (x + 2 ^ 31) % 2 ^ 32 - 2 ^ 31

/-- The product `a * b` computed in `int`; a product outside the range of `int` is
taken to wrap around. -/
def int_mul (a b : Int) : Int := wrap32 (a * b)

/-- Lines 387-390: `for (std::size_t k = 0; k < 4; ++k) ofile.write(...)`, from index `k` on. -/
def write_loop (out : AVFrame) (k : Nat) : List (Nat × Int) :=
  if k < 4 then (k, int_mul (out.linesize k) out.height) :: write_loop out (k + 1) else []
termination_by 4 - k

/-- State of an output stream: whether it is still good, and the number of bytes it has
put into its file. -/
structure OStream where
  good : Bool
  bytes : Nat
  deriving DecidableEq, Repr

/-- The call `std::ostream::write(s, n)` on a stream whose file can take `room` more bytes.
A stream that is not good writes nothing.  Otherwise the stream buffer puts `n`
characters, or as many as the file takes, and none at all when `n` is negative; the
stream turns bad when the number put differs from `n`. -/
def ostream_write (room : Nat) (st : OStream) (n : Int) : OStream :=
  if !st.good then st else
  let put : Nat := if n < 0 then 0 else min n.toNat room
  { good := decide ((put : Int) = n), bytes := st.bytes + put }

/-- The stream `ofile` after a sequence of `write` requests (plane index, byte count). -/
def ofile_after (w : World) : List (Nat × Int) → OStream → OStream
  | [], st => st
  | (k, n) :: ws, st => ofile_after w ws (ostream_write (w.ofile_room k) st n)

/-- Lines 179-395: `main`, with `argv` the argument vector (`argc` its length). -/
def main (w : World) (lib : Lib) (argv : List String) : Run :=
  let argc := argv.length
  let argv1 := argv.getD 1 ""
  let argv2 := argv.getD 2 ""
  if argc < 2 then .done 1 "No input image path specified.\n" else
  if argc < 3 then .done 1 "No output RAW file path specified.\n" else
  let l := load_image w lib none argv1
  .after l.cerr [.load_image argv1 l.ret] <|
  if !l.ret then .done 1 ("Failed to load image. " ++ l.out_strError ++ "\n") else
  .after "" [.ofstream_open argv2 w.ofile_is_open] <|
  if !w.ofile_is_open then
    .done 1 ("Failed to open output RAW file. " ++ l.out_strError ++ "\n") else
  match l.apAVFrame with
  | none => { exit := none, cerr := "", calls := [] }
  | some frame =>
  let strArgs := bufferSrcArgs lib frame
  .after ""
    [.avfilter_graph_create_filter .pBufferSrcCtx "buffer" "buffersrc" strArgs w.create_buffer] <|
  if w.create_buffer < 0 then
    .done 1 ("Cannot create buffer filter (args: " ++ strArgs ++ " ) - code="
      ++ toString w.create_buffer ++ ", error=\""
      ++ error_code_to_string lib w.create_buffer ++ "\"" ++ "\n") else
  .after ""
    [.avfilter_graph_create_filter .pBufferSinkCtx "buffersink" "buffersink" ""
      w.create_buffersink] <|
  if w.create_buffersink < 0 then
    .done 1 ("Cannot create buffersink filter - code="
      ++ toString w.create_buffersink ++ "\n") else
  let fmtArgs := "pix_fmts=yuv422p"
  .after ""
    [.avfilter_graph_create_filter .pFormatCtx "format" "format" fmtArgs w.create_format] <|
  if w.create_format < 0 then
    .done 1 ("Cannot create format filter (args: " ++ fmtArgs ++ " ) - code="
      ++ toString w.create_format ++ "\n") else
  let pchArgs := "color=green:similarity=0.3:blend=0.3"
  .after ""
    [.avfilter_graph_create_filter .pChromaKeyCtx "chromakey" "chromakey" pchArgs
      w.create_chromakey] <|
  if w.create_chromakey < 0 then
    .done 1 ("Cannot create chromakey filter (args: " ++ pchArgs ++ " ) - code="
      ++ toString w.create_chromakey ++ "\n") else
  .after "" [.avfilter_link .pBufferSrcCtx 0 .pFormatCtx 0 w.link_buffer_format] <|
  if w.link_buffer_format < 0 then
    .done 1 ("Error connecting format buffer source to format: code="
      ++ toString w.link_buffer_format ++ "\n") else
  .after "" [.avfilter_link .pFormatCtx 0 .pChromaKeyCtx 0 w.link_format_chromakey] <|
  if w.link_format_chromakey < 0 then
    .done 1 ("Error connecting format to chroma key: code="
      ++ toString w.link_format_chromakey ++ "\n") else
  .after "" [.avfilter_link .pChromaKeyCtx 0 .pBufferSinkCtx 0 w.link_chromakey_buffersink] <|
  if w.link_chromakey_buffersink < 0 then
    .done 1 ("Error connecting chroma key to buffer sink: code="
      ++ toString w.link_chromakey_buffersink ++ "\n") else
  .after "" [.avfilter_graph_config w.avfilter_graph_config] <|
  if w.avfilter_graph_config < 0 then
    .done 1 ("Failed to configure the graph: code="
      ++ toString w.avfilter_graph_config ++ "\n") else
  .after "" [.av_buffersrc_add_frame_flags w.av_buffersrc_add_frame_flags] <|
  if w.av_buffersrc_add_frame_flags < 0 then
    .done 1 ("Failed to add a frame to the graph: code="
      ++ toString w.av_buffersrc_add_frame_flags ++ "\n") else
  .after "" [.av_buffersink_get_frame w.av_buffersink_get_frame.1] <|
  if w.av_buffersink_get_frame.1 < 0 then
    .done 1 ("Failed to retrieve a frame from the graph: code="
      ++ toString w.av_buffersink_get_frame.1 ++ "\n") else
  .after "" [.write_planes (write_loop w.av_buffersink_get_frame.2 0)] <|
  .done 0 ""

/-! ## Sample runs -/

/-- A library table with one named format and one translated error code. -/
def sampleLib : Lib :=
  { AV_PIX_FMT_YUVA420P := 33
    av_get_pix_fmt_name := fun n => if n = 33 then some "yuva420p" else none
    av_strerror := fun n => if n = -22 then (0, "Invalid argument") else (-1, "") }

/-- A 64x64 frame in the four-plane format, strides 64, 32, 32, 64. -/
def sampleFrame : AVFrame :=
  { width := 64, height := 64, format := 33
    linesize := fun k => if k = 0 then 64 else if k < 3 then 32 else if k = 3 then 64 else 0 }

/-- A run in which every external call succeeds. -/
def sampleWorld : World :=
  { avformat_open_input := 0
    av_find_best_stream := 0
    codecpar := some { codec_id := 61, format := 2 }
    avcodec_find_decoder := fun _ => true
    avcodec_alloc_context3 := { skip_alpha := 1, pix_fmt := -1, sw_pix_fmt := -1 }
    avcodec_parameters_to_context := fun c p => (0, { c with pix_fmt := p.format })
    avcodec_open2 := fun _ => 0
    av_frame_alloc := { width := 0, height := 0, format := -1, linesize := fun _ => 0 }
    av_read_frame := 0
    avcodec_send_packet := 0
    avcodec_receive_frame := (0, sampleFrame)
    ofile_is_open := true
    ofile_room := fun _ => 1000000
    create_buffer := 0
    create_buffersink := 0
    create_format := 0
    create_chromakey := 0
    link_buffer_format := 0
    link_format_chromakey := 0
    link_chromakey_buffersink := 0
    avfilter_graph_config := 0
    av_buffersrc_add_frame_flags := 0
    av_buffersink_get_frame := (0, sampleFrame) }

/-- The command line `prog in.png out.raw`. -/
def sampleArgv : List String := ["prog", "in.png", "out.raw"]

/-- A run in which creating the buffer sink fails with `-22`. -/
def sinkFailWorld : World := { sampleWorld with create_buffersink := -22 }

/-- A run in which creating the format stage fails with `-22`. -/
def formatFailWorld : World := { sampleWorld with create_format := -22 }

/-- A run in which the container cannot be opened. -/
def noInputWorld : World := { sampleWorld with avformat_open_input := -2 }

/-- A 64-row frame whose first plane is stored bottom-up: strides -64, 32, 32, 64. -/
def negStrideFrame : AVFrame :=
  { width := 64, height := 64, format := 33
    linesize := fun k => if k = 0 then -64 else if k < 3 then 32 else if k = 3 then 64 else 0 }

/-- A run in which every call succeeds and the pulled frame is `negStrideFrame`. -/
def negStrideWorld : World := { sampleWorld with av_buffersink_get_frame := (0, negStrideFrame) }

/-! ## Specification vocabulary -/

/-- Every step of `main` that can fail succeeds. -/
def StepsSucceed (w : World) (lib : Lib) (argv : List String) : Prop :=
  (load_image w lib none (argv.getD 1 "")).ret = true ∧ w.ofile_is_open = true ∧
  0 ≤ w.create_buffer ∧ 0 ≤ w.create_buffersink ∧ 0 ≤ w.create_format ∧
  0 ≤ w.create_chromakey ∧ 0 ≤ w.link_buffer_format ∧ 0 ≤ w.link_format_chromakey ∧
  0 ≤ w.link_chromakey_buffersink ∧ 0 ≤ w.avfilter_graph_config ∧
  0 ≤ w.av_buffersrc_add_frame_flags ∧ 0 ≤ w.av_buffersink_get_frame.1

/-- The named pipeline operation a call of `main` performs. -/
inductive Op where
  | load_image
  | open_output
  | create (s : Stage)
  | link (src dst : Stage)
  | configure
  | push
  | pull
  | write_planes
  deriving DecidableEq, Repr

/-- The operation performed by a call. -/
def Call.op : Call → Op
  | .load_image _ _ => .load_image
  | .ofstream_open _ _ => .open_output
  | .avfilter_graph_create_filter s _ _ _ _ => .create s
  | .avfilter_link s _ d _ _ => .link s d
  | .avfilter_graph_config _ => .configure
  | .av_buffersrc_add_frame_flags _ => .push
  | .av_buffersink_get_frame _ => .pull
  | .write_planes _ => .write_planes

/-- The fixed sequence of pipeline operations. -/
def pipeline : List Op :=
  [.load_image, .open_output, .create .pBufferSrcCtx, .create .pBufferSinkCtx,
   .create .pFormatCtx, .create .pChromaKeyCtx, .link .pBufferSrcCtx .pFormatCtx,
   .link .pFormatCtx .pChromaKeyCtx, .link .pChromaKeyCtx .pBufferSinkCtx,
   .configure, .push, .pull, .write_planes]

/-- Whether an operation of the pipeline fails, read off the outcomes of the run.
The plane writes are not checked by `main` and so never count as failing. -/
def stepFails (w : World) (lib : Lib) (argv : List String) : Op → Bool
  | .load_image => !(load_image w lib none (argv.getD 1 "")).ret
  | .open_output => !w.ofile_is_open
  | .create .pBufferSrcCtx => w.create_buffer < 0
  | .create .pBufferSinkCtx => w.create_buffersink < 0
  | .create .pFormatCtx => w.create_format < 0
  | .create .pChromaKeyCtx => w.create_chromakey < 0
  | .link .pBufferSrcCtx .pFormatCtx => w.link_buffer_format < 0
  | .link .pFormatCtx .pChromaKeyCtx => w.link_format_chromakey < 0
  | .link .pChromaKeyCtx .pBufferSinkCtx => w.link_chromakey_buffersink < 0
  | .link _ _ => false
  | .configure => w.avfilter_graph_config < 0
  | .push => w.av_buffersrc_add_frame_flags < 0
  | .pull => w.av_buffersink_get_frame.1 < 0
  | .write_planes => false

/-- A link made by `avfilter_link`: source stage and pad, destination stage and pad. -/
structure Link where
  src : Stage
  srcpad : Nat
  dst : Stage
  dstpad : Nat
  deriving DecidableEq, Repr

/-- The links requested by the `avfilter_link` calls of a run, in order. -/
def linksOf : List Call → List Link
  | [] => []
  | .avfilter_link s sp d dp _ :: cs => ⟨s, sp, d, dp⟩ :: linksOf cs
  | _ :: cs => linksOf cs

/-- The calls of `main` from the first stage creation to the frame pull, when the
image was loaded into `frame` and the output file opened. -/
def pipelineCalls (w : World) (lib : Lib) (argv : List String) (frame : AVFrame) : List Call :=
  [.load_image (argv.getD 1 "") true,
   .ofstream_open (argv.getD 2 "") true,
   .avfilter_graph_create_filter .pBufferSrcCtx "buffer" "buffersrc" (bufferSrcArgs lib frame)
     w.create_buffer,
   .avfilter_graph_create_filter .pBufferSinkCtx "buffersink" "buffersink" "" w.create_buffersink,
   .avfilter_graph_create_filter .pFormatCtx "format" "format" "pix_fmts=yuv422p" w.create_format,
   .avfilter_graph_create_filter .pChromaKeyCtx "chromakey" "chromakey"
     "color=green:similarity=0.3:blend=0.3" w.create_chromakey,
   .avfilter_link .pBufferSrcCtx 0 .pFormatCtx 0 w.link_buffer_format,
   .avfilter_link .pFormatCtx 0 .pChromaKeyCtx 0 w.link_format_chromakey,
   .avfilter_link .pChromaKeyCtx 0 .pBufferSinkCtx 0 w.link_chromakey_buffersink,
   .avfilter_graph_config w.avfilter_graph_config,
   .av_buffersrc_add_frame_flags w.av_buffersrc_add_frame_flags,
   .av_buffersink_get_frame w.av_buffersink_get_frame.1]

/-- The control paths of `main`: the conditions under which each is taken and the
run it produces. -/
inductive Path (w : World) (lib : Lib) (argv : List String) : Run → Prop where
  | no_input (h : argv.length < 2) :
      Path w lib argv ⟨some 1, "No input image path specified.\n", []⟩
  | no_output (h : argv.length = 2) :
      Path w lib argv ⟨some 1, "No output RAW file path specified.\n", []⟩
  | load_failed (ha : 3 ≤ argv.length)
      (hl : (load_image w lib none (argv.getD 1 "")).ret = false) :
      Path w lib argv ⟨some 1,
        (load_image w lib none (argv.getD 1 "")).cerr ++ ("Failed to load image. "
          ++ (load_image w lib none (argv.getD 1 "")).out_strError ++ "\n"),
        [.load_image (argv.getD 1 "") false]⟩
  | open_failed (ha : 3 ≤ argv.length)
      (hl : (load_image w lib none (argv.getD 1 "")).ret = true)
      (ho : w.ofile_is_open = false) :
      Path w lib argv ⟨some 1,
        (load_image w lib none (argv.getD 1 "")).cerr ++ ("Failed to open output RAW file. "
          ++ (load_image w lib none (argv.getD 1 "")).out_strError ++ "\n"),
        [.load_image (argv.getD 1 "") true, .ofstream_open (argv.getD 2 "") false]⟩
  | create_buffer_failed (f : AVFrame) (ha : 3 ≤ argv.length)
      (hl : (load_image w lib none (argv.getD 1 "")).ret = true)
      (hf : (load_image w lib none (argv.getD 1 "")).apAVFrame = some f)
      (ho : w.ofile_is_open = true) (h1 : w.create_buffer < 0) :
      Path w lib argv ⟨some 1,
        (load_image w lib none (argv.getD 1 "")).cerr ++ ("Cannot create buffer filter (args: "
          ++ bufferSrcArgs lib f ++ " ) - code=" ++ toString w.create_buffer ++ ", error=\""
          ++ error_code_to_string lib w.create_buffer ++ "\"" ++ "\n"),
        (pipelineCalls w lib argv f).take 3⟩
  | create_buffersink_failed (f : AVFrame) (ha : 3 ≤ argv.length)
      (hl : (load_image w lib none (argv.getD 1 "")).ret = true)
      (hf : (load_image w lib none (argv.getD 1 "")).apAVFrame = some f)
      (ho : w.ofile_is_open = true) (h1 : 0 ≤ w.create_buffer) (h2 : w.create_buffersink < 0) :
      Path w lib argv ⟨some 1,
        (load_image w lib none (argv.getD 1 "")).cerr ++ ("Cannot create buffersink filter - code="
          ++ toString w.create_buffersink ++ "\n"),
        (pipelineCalls w lib argv f).take 4⟩
  | create_format_failed (f : AVFrame) (ha : 3 ≤ argv.length)
      (hl : (load_image w lib none (argv.getD 1 "")).ret = true)
      (hf : (load_image w lib none (argv.getD 1 "")).apAVFrame = some f)
      (ho : w.ofile_is_open = true) (h1 : 0 ≤ w.create_buffer) (h2 : 0 ≤ w.create_buffersink)
      (h3 : w.create_format < 0) :
      Path w lib argv ⟨some 1,
        (load_image w lib none (argv.getD 1 "")).cerr ++ ("Cannot create format filter (args: "
          ++ "pix_fmts=yuv422p" ++ " ) - code=" ++ toString w.create_format ++ "\n"),
        (pipelineCalls w lib argv f).take 5⟩
  | create_chromakey_failed (f : AVFrame) (ha : 3 ≤ argv.length)
      (hl : (load_image w lib none (argv.getD 1 "")).ret = true)
      (hf : (load_image w lib none (argv.getD 1 "")).apAVFrame = some f)
      (ho : w.ofile_is_open = true) (h1 : 0 ≤ w.create_buffer) (h2 : 0 ≤ w.create_buffersink)
      (h3 : 0 ≤ w.create_format) (h4 : w.create_chromakey < 0) :
      Path w lib argv ⟨some 1,
        (load_image w lib none (argv.getD 1 "")).cerr ++ ("Cannot create chromakey filter (args: "
          ++ "color=green:similarity=0.3:blend=0.3" ++ " ) - code="
          ++ toString w.create_chromakey ++ "\n"),
        (pipelineCalls w lib argv f).take 6⟩
  | link_buffer_format_failed (f : AVFrame) (ha : 3 ≤ argv.length)
      (hl : (load_image w lib none (argv.getD 1 "")).ret = true)
      (hf : (load_image w lib none (argv.getD 1 "")).apAVFrame = some f)
      (ho : w.ofile_is_open = true) (h1 : 0 ≤ w.create_buffer) (h2 : 0 ≤ w.create_buffersink)
      (h3 : 0 ≤ w.create_format) (h4 : 0 ≤ w.create_chromakey) (h5 : w.link_buffer_format < 0) :
      Path w lib argv ⟨some 1,
        (load_image w lib none (argv.getD 1 "")).cerr
          ++ ("Error connecting format buffer source to format: code="
          ++ toString w.link_buffer_format ++ "\n"),
        (pipelineCalls w lib argv f).take 7⟩
  | link_format_chromakey_failed (f : AVFrame) (ha : 3 ≤ argv.length)
      (hl : (load_image w lib none (argv.getD 1 "")).ret = true)
      (hf : (load_image w lib none (argv.getD 1 "")).apAVFrame = some f)
      (ho : w.ofile_is_open = true) (h1 : 0 ≤ w.create_buffer) (h2 : 0 ≤ w.create_buffersink)
      (h3 : 0 ≤ w.create_format) (h4 : 0 ≤ w.create_chromakey) (h5 : 0 ≤ w.link_buffer_format)
      (h6 : w.link_format_chromakey < 0) :
      Path w lib argv ⟨some 1,
        (load_image w lib none (argv.getD 1 "")).cerr
          ++ ("Error connecting format to chroma key: code="
          ++ toString w.link_format_chromakey ++ "\n"),
        (pipelineCalls w lib argv f).take 8⟩
  | link_chromakey_buffersink_failed (f : AVFrame) (ha : 3 ≤ argv.length)
      (hl : (load_image w lib none (argv.getD 1 "")).ret = true)
      (hf : (load_image w lib none (argv.getD 1 "")).apAVFrame = some f)
      (ho : w.ofile_is_open = true) (h1 : 0 ≤ w.create_buffer) (h2 : 0 ≤ w.create_buffersink)
      (h3 : 0 ≤ w.create_format) (h4 : 0 ≤ w.create_chromakey) (h5 : 0 ≤ w.link_buffer_format)
      (h6 : 0 ≤ w.link_format_chromakey) (h7 : w.link_chromakey_buffersink < 0) :
      Path w lib argv ⟨some 1,
        (load_image w lib none (argv.getD 1 "")).cerr
          ++ ("Error connecting chroma key to buffer sink: code="
          ++ toString w.link_chromakey_buffersink ++ "\n"),
        (pipelineCalls w lib argv f).take 9⟩
  | config_failed (f : AVFrame) (ha : 3 ≤ argv.length)
      (hl : (load_image w lib none (argv.getD 1 "")).ret = true)
      (hf : (load_image w lib none (argv.getD 1 "")).apAVFrame = some f)
      (ho : w.ofile_is_open = true) (h1 : 0 ≤ w.create_buffer) (h2 : 0 ≤ w.create_buffersink)
      (h3 : 0 ≤ w.create_format) (h4 : 0 ≤ w.create_chromakey) (h5 : 0 ≤ w.link_buffer_format)
      (h6 : 0 ≤ w.link_format_chromakey) (h7 : 0 ≤ w.link_chromakey_buffersink)
      (h8 : w.avfilter_graph_config < 0) :
      Path w lib argv ⟨some 1,
        (load_image w lib none (argv.getD 1 "")).cerr ++ ("Failed to configure the graph: code="
          ++ toString w.avfilter_graph_config ++ "\n"),
        (pipelineCalls w lib argv f).take 10⟩
  | push_failed (f : AVFrame) (ha : 3 ≤ argv.length)
      (hl : (load_image w lib none (argv.getD 1 "")).ret = true)
      (hf : (load_image w lib none (argv.getD 1 "")).apAVFrame = some f)
      (ho : w.ofile_is_open = true) (h1 : 0 ≤ w.create_buffer) (h2 : 0 ≤ w.create_buffersink)
      (h3 : 0 ≤ w.create_format) (h4 : 0 ≤ w.create_chromakey) (h5 : 0 ≤ w.link_buffer_format)
      (h6 : 0 ≤ w.link_format_chromakey) (h7 : 0 ≤ w.link_chromakey_buffersink)
      (h8 : 0 ≤ w.avfilter_graph_config) (h9 : w.av_buffersrc_add_frame_flags < 0) :
      Path w lib argv ⟨some 1,
        (load_image w lib none (argv.getD 1 "")).cerr
          ++ ("Failed to add a frame to the graph: code="
          ++ toString w.av_buffersrc_add_frame_flags ++ "\n"),
        (pipelineCalls w lib argv f).take 11⟩
  | pull_failed (f : AVFrame) (ha : 3 ≤ argv.length)
      (hl : (load_image w lib none (argv.getD 1 "")).ret = true)
      (hf : (load_image w lib none (argv.getD 1 "")).apAVFrame = some f)
      (ho : w.ofile_is_open = true) (h1 : 0 ≤ w.create_buffer) (h2 : 0 ≤ w.create_buffersink)
      (h3 : 0 ≤ w.create_format) (h4 : 0 ≤ w.create_chromakey) (h5 : 0 ≤ w.link_buffer_format)
      (h6 : 0 ≤ w.link_format_chromakey) (h7 : 0 ≤ w.link_chromakey_buffersink)
      (h8 : 0 ≤ w.avfilter_graph_config) (h9 : 0 ≤ w.av_buffersrc_add_frame_flags)
      (h10 : w.av_buffersink_get_frame.1 < 0) :
      Path w lib argv ⟨some 1,
        (load_image w lib none (argv.getD 1 "")).cerr
          ++ ("Failed to retrieve a frame from the graph: code="
          ++ toString w.av_buffersink_get_frame.1 ++ "\n"),
        pipelineCalls w lib argv f⟩
  | completed (f : AVFrame) (ha : 3 ≤ argv.length)
      (hl : (load_image w lib none (argv.getD 1 "")).ret = true)
      (hf : (load_image w lib none (argv.getD 1 "")).apAVFrame = some f)
      (ho : w.ofile_is_open = true) (h1 : 0 ≤ w.create_buffer) (h2 : 0 ≤ w.create_buffersink)
      (h3 : 0 ≤ w.create_format) (h4 : 0 ≤ w.create_chromakey) (h5 : 0 ≤ w.link_buffer_format)
      (h6 : 0 ≤ w.link_format_chromakey) (h7 : 0 ≤ w.link_chromakey_buffersink)
      (h8 : 0 ≤ w.avfilter_graph_config) (h9 : 0 ≤ w.av_buffersrc_add_frame_flags)
      (h10 : 0 ≤ w.av_buffersink_get_frame.1) :
      Path w lib argv ⟨some 0, (load_image w lib none (argv.getD 1 "")).cerr,
        pipelineCalls w lib argv f
          ++ [.write_planes (write_loop w.av_buffersink_get_frame.2 0)]⟩

/-- The write requests of a run: the payloads of its plane loops, in order. -/
def writesOf : List Call → List (Nat × Int)
  | [] => []
  | .write_planes ws :: cs => ws ++ writesOf cs
  | _ :: cs => writesOf cs

/-- The output stream at the end of a run: `ofile`, good once opened, after the write
requests of the run. -/
def ofile_of (w : World) (r : Run) : OStream :=
  ofile_after w (writesOf r.calls) { good := true, bytes := 0 }

/-! ## Control paths of `load_image` -/

/-- The events of `load_image` up to and including the codec parameter copy. -/
def eventsToCopy (p : String) (par : AVCodecParameters) : List LEvent :=
  [.avformat_open_input p, .av_find_best_stream, .avcodec_find_decoder par.codec_id,
   .avcodec_alloc_context3, .avcodec_parameters_to_context]

/-- The decoder context at the `avcodec_open2` call. -/
def openedCtx (w : World) (lib : Lib) (par : AVCodecParameters) : AVCodecContext :=
  force_pix_fmt lib (w.avcodec_parameters_to_context w.avcodec_alloc_context3 par).2

/-- The events of `load_image` up to and including the packet read. -/
def eventsToRead (w : World) (lib : Lib) (fr : Option AVFrame) (p : String)
    (par : AVCodecParameters) : List LEvent :=
  eventsToCopy p par ++ .avcodec_open2 (openedCtx w lib par) :: (ensure_frame w fr).1
    ++ [.av_init_packet, .av_read_frame]

/-- The control paths of `load_image`: the conditions under which each is taken and
the result it produces. -/
inductive LoadPath (w : World) (lib : Lib) (fr : Option AVFrame) (p : String) :
    LoadResult → Prop where
  | open_failed (h1 : w.avformat_open_input < 0) :
      LoadPath w lib fr p ⟨false, fr, "",
        "Could not open media at path: '" ++ p ++ "': " ++ toString w.avformat_open_input
          ++ "\n",
        [.avformat_open_input p]⟩
  | no_stream (h1 : 0 ≤ w.avformat_open_input) (h2 : w.av_find_best_stream < 0) :
      LoadPath w lib fr p ⟨false, fr, "Failed to find video stream for '" ++ p ++ "'", "",
        [.avformat_open_input p, .av_find_best_stream, .avformat_close_input]⟩
  | no_codecpar (h1 : 0 ≤ w.avformat_open_input) (h2 : 0 ≤ w.av_find_best_stream)
      (h3 : w.codecpar = none) :
      LoadPath w lib fr p ⟨false, fr,
        "Failed to retrieve codec parameters: NULL codec parameters pointer", "",
        [.avformat_open_input p, .av_find_best_stream, .avformat_close_input]⟩
  | no_decoder (par : AVCodecParameters) (h1 : 0 ≤ w.avformat_open_input)
      (h2 : 0 ≤ w.av_find_best_stream) (h3 : w.codecpar = some par)
      (h4 : w.avcodec_find_decoder par.codec_id = false) :
      LoadPath w lib fr p ⟨false, fr, "Failed to find codec: NULL codec pointer", "",
        [.avformat_open_input p, .av_find_best_stream, .avcodec_find_decoder par.codec_id,
         .avformat_close_input]⟩
  | copy_failed (par : AVCodecParameters) (h1 : 0 ≤ w.avformat_open_input)
      (h2 : 0 ≤ w.av_find_best_stream) (h3 : w.codecpar = some par)
      (h4 : w.avcodec_find_decoder par.codec_id = true)
      (h5 : (w.avcodec_parameters_to_context w.avcodec_alloc_context3 par).1 < 0) :
      LoadPath w lib fr p ⟨false, fr,
        "Failed to copy codec parameters to decoder context: code="
          ++ toString (w.avcodec_parameters_to_context w.avcodec_alloc_context3 par).1, "",
        eventsToCopy p par ++ [.avcodec_free_context, .avformat_close_input]⟩
  | open2_failed (par : AVCodecParameters) (h1 : 0 ≤ w.avformat_open_input)
      (h2 : 0 ≤ w.av_find_best_stream) (h3 : w.codecpar = some par)
      (h4 : w.avcodec_find_decoder par.codec_id = true)
      (h5 : 0 ≤ (w.avcodec_parameters_to_context w.avcodec_alloc_context3 par).1)
      (h6 : w.avcodec_open2 (openedCtx w lib par) < 0) :
      LoadPath w lib fr p ⟨false, fr,
        "Failed to open codec: code=" ++ toString (w.avcodec_open2 (openedCtx w lib par)), "",
        eventsToCopy p par ++ [.avcodec_open2 (openedCtx w lib par), .avcodec_free_context,
          .avformat_close_input]⟩
  | read_failed (par : AVCodecParameters) (h1 : 0 ≤ w.avformat_open_input)
      (h2 : 0 ≤ w.av_find_best_stream) (h3 : w.codecpar = some par)
      (h4 : w.avcodec_find_decoder par.codec_id = true)
      (h5 : 0 ≤ (w.avcodec_parameters_to_context w.avcodec_alloc_context3 par).1)
      (h6 : 0 ≤ w.avcodec_open2 (openedCtx w lib par)) (h7 : w.av_read_frame < 0) :
      LoadPath w lib fr p ⟨false, some (ensure_frame w fr).2,
        "Failed to read frame from file: code=" ++ toString w.av_read_frame, "",
        eventsToRead w lib fr p par ++ [.avcodec_free_context, .avformat_close_input]⟩
  | send_failed (par : AVCodecParameters) (h1 : 0 ≤ w.avformat_open_input)
      (h2 : 0 ≤ w.av_find_best_stream) (h3 : w.codecpar = some par)
      (h4 : w.avcodec_find_decoder par.codec_id = true)
      (h5 : 0 ≤ (w.avcodec_parameters_to_context w.avcodec_alloc_context3 par).1)
      (h6 : 0 ≤ w.avcodec_open2 (openedCtx w lib par)) (h7 : 0 ≤ w.av_read_frame)
      (h8 : w.avcodec_send_packet < 0) :
      LoadPath w lib fr p ⟨false, some (ensure_frame w fr).2,
        "Failed to decode image from file: " ++ toString w.avcodec_send_packet, "",
        eventsToRead w lib fr p par ++ [.avcodec_send_packet, .av_packet_unref,
          .avcodec_free_context, .avformat_close_input]⟩
  | receive_failed (par : AVCodecParameters) (h1 : 0 ≤ w.avformat_open_input)
      (h2 : 0 ≤ w.av_find_best_stream) (h3 : w.codecpar = some par)
      (h4 : w.avcodec_find_decoder par.codec_id = true)
      (h5 : 0 ≤ (w.avcodec_parameters_to_context w.avcodec_alloc_context3 par).1)
      (h6 : 0 ≤ w.avcodec_open2 (openedCtx w lib par)) (h7 : 0 ≤ w.av_read_frame)
      (h8 : 0 ≤ w.avcodec_send_packet) (h9 : w.avcodec_receive_frame.1 < 0) :
      LoadPath w lib fr p ⟨false, some w.avcodec_receive_frame.2,
        "Failed to decode image from file: code=" ++ toString w.avcodec_receive_frame.1, "",
        eventsToRead w lib fr p par ++ [.avcodec_send_packet, .avcodec_receive_frame,
          .av_packet_unref, .avcodec_free_context, .avformat_close_input]⟩
  | loaded (par : AVCodecParameters) (h1 : 0 ≤ w.avformat_open_input)
      (h2 : 0 ≤ w.av_find_best_stream) (h3 : w.codecpar = some par)
      (h4 : w.avcodec_find_decoder par.codec_id = true)
      (h5 : 0 ≤ (w.avcodec_parameters_to_context w.avcodec_alloc_context3 par).1)
      (h6 : 0 ≤ w.avcodec_open2 (openedCtx w lib par)) (h7 : 0 ≤ w.av_read_frame)
      (h8 : 0 ≤ w.avcodec_send_packet) (h9 : 0 ≤ w.avcodec_receive_frame.1) :
      LoadPath w lib fr p ⟨true, some w.avcodec_receive_frame.2, "", "",
        eventsToRead w lib fr p par ++ [.avcodec_send_packet, .avcodec_receive_frame,
          .av_packet_unref, .avcodec_free_context, .avformat_close_input]⟩

/-! ## Control path lemmas -/

/-- Every call of `load_image` follows one of the listed control paths. -/
theorem load_image_path (w : World) (lib : Lib) (fr : Option AVFrame) (p : String) :
    LoadPath w lib fr p (load_image w lib fr p) := by
  generalize hm : load_image w lib fr p = m
  unfold load_image open_input_format_context at hm
  dsimp only at hm
  by_cases h1 : w.avformat_open_input < 0
  · rw [if_pos h1] at hm
    dsimp only at hm
    rw [if_pos (show (!false) = true by rfl)] at hm
    subst hm
    have hp := @LoadPath.open_failed w lib fr p h1
    simpa [LoadResult.after, LoadResult.atScopeExit, LoadResult.done, release] using hp
  rw [if_neg h1] at hm
  dsimp only at hm
  rw [if_neg (show ¬ (!true) = true by decide)] at hm
  by_cases h2 : w.av_find_best_stream < 0
  · rw [if_pos h2] at hm; subst hm
    have hp := @LoadPath.no_stream w lib fr p (not_lt.mp h1) h2
    simpa [LoadResult.after, LoadResult.atScopeExit, LoadResult.done, release] using hp
  rw [if_neg h2] at hm
  rcases h3 : w.codecpar with _ | par
  · rw [h3] at hm; subst hm
    have hp := @LoadPath.no_codecpar w lib fr p (not_lt.mp h1)
      (not_lt.mp h2) h3
    simpa [LoadResult.after, LoadResult.atScopeExit, LoadResult.done, release] using hp
  rw [h3] at hm
  dsimp only at hm
  rcases h4 : w.avcodec_find_decoder par.codec_id with _ | _
  · rw [h4, if_pos (show (!false) = true by rfl)] at hm; subst hm
    have hp := @LoadPath.no_decoder w lib fr p par (not_lt.mp h1)
      (not_lt.mp h2) h3 h4
    simpa [LoadResult.after, LoadResult.atScopeExit, LoadResult.done, release] using hp
  rw [h4, if_neg (show ¬ (!true) = true by decide)] at hm
  by_cases h5 : (w.avcodec_parameters_to_context w.avcodec_alloc_context3 par).1 < 0
  · rw [if_pos h5] at hm; subst hm
    have hp := @LoadPath.copy_failed w lib fr p par (not_lt.mp h1)
      (not_lt.mp h2) h3 h4 h5
    simpa [LoadResult.after, LoadResult.atScopeExit, LoadResult.done, release, eventsToCopy]
      using hp
  rw [if_neg h5] at hm
  by_cases h6 : w.avcodec_open2
      (force_pix_fmt lib (w.avcodec_parameters_to_context w.avcodec_alloc_context3 par).2) < 0
  · rw [if_pos h6] at hm; subst hm
    have hp := @LoadPath.open2_failed w lib fr p par (not_lt.mp h1)
      (not_lt.mp h2) h3 h4 (not_lt.mp h5) h6
    simpa [LoadResult.after, LoadResult.atScopeExit, LoadResult.done, release, eventsToCopy,
      openedCtx] using hp
  rw [if_neg h6] at hm
  by_cases h7 : w.av_read_frame < 0
  · rw [if_pos h7] at hm; subst hm
    have hp := @LoadPath.read_failed w lib fr p par (not_lt.mp h1)
      (not_lt.mp h2) h3 h4 (not_lt.mp h5) (not_lt.mp h6) h7
    simpa [LoadResult.after, LoadResult.atScopeExit, LoadResult.done, eventsToRead, eventsToCopy,
      release, openedCtx] using hp
  rw [if_neg h7] at hm
  by_cases h8 : w.avcodec_send_packet < 0
  · rw [if_pos h8] at hm; subst hm
    have hp := @LoadPath.send_failed w lib fr p par (not_lt.mp h1)
      (not_lt.mp h2) h3 h4 (not_lt.mp h5) (not_lt.mp h6) (not_lt.mp h7) h8
    simpa [LoadResult.after, LoadResult.atScopeExit, LoadResult.done, eventsToRead, eventsToCopy,
      release, openedCtx] using hp
  rw [if_neg h8] at hm
  by_cases h9 : w.avcodec_receive_frame.1 < 0
  · rw [if_pos h9] at hm; subst hm
    have hp := @LoadPath.receive_failed w lib fr p par (not_lt.mp h1)
      (not_lt.mp h2) h3 h4 (not_lt.mp h5) (not_lt.mp h6) (not_lt.mp h7) (not_lt.mp h8) h9
    simpa [LoadResult.after, LoadResult.atScopeExit, LoadResult.done, eventsToRead, eventsToCopy,
      release, openedCtx] using hp
  rw [if_neg h9] at hm; subst hm
  have hp := @LoadPath.loaded w lib fr p par (not_lt.mp h1)
    (not_lt.mp h2) h3 h4 (not_lt.mp h5) (not_lt.mp h6) (not_lt.mp h7) (not_lt.mp h8)
    (not_lt.mp h9)
  simpa [LoadResult.after, LoadResult.atScopeExit, LoadResult.done, eventsToRead, eventsToCopy,
    release, openedCtx] using hp

/-- A successful `load_image` leaves a frame in the caller's pointer. -/
theorem load_image_frame (w : World) (lib : Lib) (fr : Option AVFrame) (p : String)
    (h : (load_image w lib fr p).ret = true) :
    ∃ f, (load_image w lib fr p).apAVFrame = some f := by
  have hp := load_image_path w lib fr p
  generalize load_image w lib fr p = r at hp h ⊢
  cases hp <;> simp_all

/-! ## Control paths of `main` -/

/-- Every run of `main` follows one of the listed control paths. -/
theorem main_path (w : World) (lib : Lib) (argv : List String) :
    Path w lib argv (main w lib argv) := by
  have hfr := load_image_frame w lib none (argv.getD 1 "")
  generalize hm : main w lib argv = m
  unfold main at hm
  dsimp only at hm
  by_cases a1 : argv.length < 2
  · rw [if_pos a1] at hm; subst hm; exact .no_input a1
  rw [if_neg a1] at hm
  by_cases a2 : argv.length < 3
  · rw [if_pos a2] at hm; subst hm; exact .no_output (by omega)
  rw [if_neg a2] at hm
  have ha : 3 ≤ argv.length := by omega
  rcases hl : (load_image w lib none (argv.getD 1 "")).ret with _ | _
  · rw [hl, if_pos (by rfl)] at hm; subst hm
    exact .load_failed ha hl
  rw [hl, if_neg (by decide)] at hm
  obtain ⟨f, hf⟩ := hfr hl
  rcases ho : w.ofile_is_open with _ | _
  · rw [ho, if_pos (by rfl)] at hm; subst hm
    exact .open_failed ha hl ho
  rw [ho, if_neg (by decide), hf] at hm
  dsimp only at hm
  by_cases h1 : w.create_buffer < 0
  · rw [if_pos h1] at hm; subst hm
    exact .create_buffer_failed f ha hl hf ho h1
  rw [if_neg h1] at hm
  by_cases h2 : w.create_buffersink < 0
  · rw [if_pos h2] at hm; subst hm
    exact .create_buffersink_failed f ha hl hf ho (not_lt.mp h1) h2
  rw [if_neg h2] at hm
  by_cases h3 : w.create_format < 0
  · rw [if_pos h3] at hm; subst hm
    exact .create_format_failed f ha hl hf ho (not_lt.mp h1) (not_lt.mp h2) h3
  rw [if_neg h3] at hm
  by_cases h4 : w.create_chromakey < 0
  · rw [if_pos h4] at hm; subst hm
    exact .create_chromakey_failed f ha hl hf ho (not_lt.mp h1) (not_lt.mp h2) (not_lt.mp h3) h4
  rw [if_neg h4] at hm
  by_cases h5 : w.link_buffer_format < 0
  · rw [if_pos h5] at hm; subst hm
    exact .link_buffer_format_failed f ha hl hf ho (not_lt.mp h1) (not_lt.mp h2) (not_lt.mp h3)
      (not_lt.mp h4) h5
  rw [if_neg h5] at hm
  by_cases h6 : w.link_format_chromakey < 0
  · rw [if_pos h6] at hm; subst hm
    exact .link_format_chromakey_failed f ha hl hf ho (not_lt.mp h1) (not_lt.mp h2)
      (not_lt.mp h3) (not_lt.mp h4) (not_lt.mp h5) h6
  rw [if_neg h6] at hm
  by_cases h7 : w.link_chromakey_buffersink < 0
  · rw [if_pos h7] at hm; subst hm
    exact .link_chromakey_buffersink_failed f ha hl hf ho (not_lt.mp h1) (not_lt.mp h2)
      (not_lt.mp h3) (not_lt.mp h4) (not_lt.mp h5) (not_lt.mp h6) h7
  rw [if_neg h7] at hm
  by_cases h8 : w.avfilter_graph_config < 0
  · rw [if_pos h8] at hm; subst hm
    exact .config_failed f ha hl hf ho (not_lt.mp h1) (not_lt.mp h2) (not_lt.mp h3)
      (not_lt.mp h4) (not_lt.mp h5) (not_lt.mp h6) (not_lt.mp h7) h8
  rw [if_neg h8] at hm
  by_cases h9 : w.av_buffersrc_add_frame_flags < 0
  · rw [if_pos h9] at hm; subst hm
    exact .push_failed f ha hl hf ho (not_lt.mp h1) (not_lt.mp h2) (not_lt.mp h3)
      (not_lt.mp h4) (not_lt.mp h5) (not_lt.mp h6) (not_lt.mp h7) (not_lt.mp h8) h9
  rw [if_neg h9] at hm
  by_cases h10 : w.av_buffersink_get_frame.1 < 0
  · rw [if_pos h10] at hm; subst hm
    exact .pull_failed f ha hl hf ho (not_lt.mp h1) (not_lt.mp h2) (not_lt.mp h3)
      (not_lt.mp h4) (not_lt.mp h5) (not_lt.mp h6) (not_lt.mp h7) (not_lt.mp h8)
      (not_lt.mp h9) h10
  rw [if_neg h10] at hm; subst hm
  have hp := Path.completed f ha hl hf ho (not_lt.mp h1) (not_lt.mp h2) (not_lt.mp h3)
    (not_lt.mp h4) (not_lt.mp h5) (not_lt.mp h6) (not_lt.mp h7) (not_lt.mp h8)
    (not_lt.mp h9) (not_lt.mp h10)
  simpa [Run.after, Run.done, pipelineCalls] using hp

theorem startsWith_iff (t p : List Char) : startsWith t p = true ↔ ∃ b, t = p ++ b := by
  induction p generalizing t with
  | nil => cases t <;> simp [startsWith]
  | cons d p ih =>
    cases t with
    | nil => simp [startsWith]
    | cons c t =>
      simp only [startsWith, Bool.and_eq_true, beq_iff_eq, ih, List.cons_append, List.cons.injEq]
      constructor
      · rintro ⟨rfl, b, rfl⟩
        exact ⟨b, rfl, rfl⟩
      · rintro ⟨b, rfl, rfl⟩
        exact ⟨rfl, b, rfl⟩

theorem occursIn_iff (t p : List Char) : occursIn t p = true ↔ ∃ a b, t = a ++ (p ++ b) := by
  induction t with
  | nil =>
    simp only [occursIn, startsWith_iff]
    constructor
    · rintro ⟨b, h⟩
      exact ⟨[], b, h⟩
    · rintro ⟨a, b, h⟩
      have h1 := List.append_eq_nil.mp h.symm
      have h2 := List.append_eq_nil.mp h1.2
      exact ⟨[], by simp [h2.1]⟩
  | cons c t ih =>
    simp only [occursIn, Bool.or_eq_true, startsWith_iff, ih]
    constructor
    · rintro (⟨b, h⟩ | ⟨a, b, h⟩)
      · exact ⟨[], b, h⟩
      · exact ⟨c :: a, b, by simp [h]⟩
    · rintro ⟨a, b, h⟩
      cases a with
      | nil => exact Or.inl ⟨b, h⟩
      | cons d a =>
        simp only [List.cons_append, List.cons.injEq] at h
        exact Or.inr ⟨a, b, h.2⟩

/-- Containment is the existence of a split of the text around the part. -/
theorem contains_iff (t p : String) : Contains t p ↔ ∃ a b : String, t = a ++ (p ++ b) := by
  unfold Contains
  rw [occursIn_iff]
  constructor
  · rintro ⟨a, b, h⟩
    exact ⟨⟨a⟩, ⟨b⟩, String.ext (by simpa using h)⟩
  · rintro ⟨a, b, h⟩
    exact ⟨a.data, b.data, by simp [h]⟩

theorem contains_append_left (a t p : String) (h : Contains t p) : Contains (a ++ t) p := by
  rw [contains_iff] at h ⊢
  obtain ⟨x, y, rfl⟩ := h
  exact ⟨a ++ x, y, by simp [String.append_assoc]⟩

theorem contains_append_right (t b p : String) (h : Contains t p) : Contains (t ++ b) p := by
  rw [contains_iff] at h ⊢
  obtain ⟨x, y, rfl⟩ := h
  exact ⟨x, y ++ b, by simp [String.append_assoc]⟩

theorem contains_self_append_left (a p : String) : Contains (a ++ p) p :=
  (contains_iff _ _).mpr ⟨a, "", by simp⟩

theorem contains_empty (t : String) : Contains t "" :=
  (contains_iff _ _).mpr ⟨"", t, by simp⟩

theorem write_loop_zero (out : AVFrame) :
    write_loop out 0 =
      [(0, int_mul (out.linesize 0) out.height), (1, int_mul (out.linesize 1) out.height),
       (2, int_mul (out.linesize 2) out.height), (3, int_mul (out.linesize 3) out.height)] := by
  simp [write_loop]

/-- Within the range of `int` the wrapped product is the exact product. -/
theorem int_mul_exact (a b : Int) (hlo : -2 ^ 31 ≤ a * b) (hhi : a * b < 2 ^ 31) :
    int_mul a b = a * b := by
  unfold int_mul wrap32
  omega

/-- Diagnostics of `load_image` when the container cannot be opened. -/
theorem load_image_open_failure (w : World) (lib : Lib) (fr : Option AVFrame) (p : String)
    (h : w.avformat_open_input < 0) :
    (load_image w lib fr p).ret = false ∧
      (load_image w lib fr p).cerr = "Could not open media at path: '" ++ p ++ "': "
        ++ toString w.avformat_open_input ++ "\n" := by
  have hp := load_image_path w lib fr p
  generalize load_image w lib fr p = r at hp ⊢
  cases hp <;> first | omega | simp

/-- Diagnostics of `load_image` when no video stream is found. -/
theorem load_image_no_stream (w : World) (lib : Lib) (fr : Option AVFrame) (p : String)
    (h : 0 ≤ w.avformat_open_input) (hs : w.av_find_best_stream < 0) :
    (load_image w lib fr p).ret = false ∧
      (load_image w lib fr p).out_strError = "Failed to find video stream for '" ++ p ++ "'" := by
  have hp := load_image_path w lib fr p
  generalize load_image w lib fr p = r at hp ⊢
  cases hp <;> first | omega | simp

/-- The one diagnostic of `main` that translates the error code: when creating the
buffer source fails, the text on `std::cerr` contains `error_code_to_string` of the code. -/
theorem create_buffer_failure_names_cause (w : World) (lib : Lib) (argv : List String)
    (hargs : 3 ≤ argv.length) (hl : (load_image w lib none (argv.getD 1 "")).ret = true)
    (ho : w.ofile_is_open = true) (hc : w.create_buffer < 0) :
    Contains (main w lib argv).cerr (error_code_to_string lib w.create_buffer) := by
  have hp := main_path w lib argv
  generalize main w lib argv = r at hp ⊢
  cases hp <;> first | omega | simp_all
  apply contains_append_left
  apply contains_append_right
  apply contains_append_right
  exact contains_self_append_left _ _

/-! ## The claims -/

/-- C1: with every external call an outcome of the run, `main` returns 0 exactly when at
least two arguments are supplied (`argc ≥ 3`) and the image load, the output file open,
the four stage creations, the three links, the graph configuration, the frame push and
the frame pull all succeed; in every other case it returns 1. It never returns another
value, and it never fails to return. -/
theorem main_returns_zero_iff_all_steps_succeed (w : World) (lib : Lib) (argv : List String) :
    ((main w lib argv).exit = some 0 ↔ 3 ≤ argv.length ∧ StepsSucceed w lib argv) ∧
    ((main w lib argv).exit = some 0 ∨ (main w lib argv).exit = some 1) := by
  have hp := main_path w lib argv
  generalize main w lib argv = r at hp ⊢
  cases hp <;> simp_all [StepsSucceed]
  omega

/-- C2: for every combination of outcomes, the operations `main` performs are the
initial part of the fixed pipeline sequence that ends at, and includes, the first
operation that fails (the whole sequence when none fails, nothing when an argument is
missing). Hence nothing runs after a failure, no operation occurs twice, the graph is
configured only after the four creations and the three links succeeded, and the planes
are written only after the pull succeeded. -/
theorem main_calls_follow_pipeline (w : World) (lib : Lib) (argv : List String) :
    (main w lib argv).calls.map Call.op =
        (if argv.length < 3 then [] else
          pipeline.take (pipeline.findIdx (stepFails w lib argv) + 1)) ∧
      (∃ rest, (main w lib argv).calls.map Call.op ++ rest = pipeline) ∧
      ((main w lib argv).calls.map Call.op).Nodup ∧
      (Op.configure ∈ (main w lib argv).calls.map Call.op →
        0 ≤ w.create_buffer ∧ 0 ≤ w.create_buffersink ∧ 0 ≤ w.create_format ∧
        0 ≤ w.create_chromakey ∧ 0 ≤ w.link_buffer_format ∧ 0 ≤ w.link_format_chromakey ∧
        0 ≤ w.link_chromakey_buffersink) ∧
      (Op.write_planes ∈ (main w lib argv).calls.map Call.op →
        0 ≤ w.av_buffersink_get_frame.1) := by
  have hp := main_path w lib argv
  generalize main w lib argv = r at hp ⊢
  cases hp <;>
    simp_all [pipelineCalls, Call.op, pipeline, List.findIdx_cons, stepFails, not_lt.mpr]
  omega

/-- The write requests of a run whose frame pull was made and succeeded. -/
theorem writes_of_pulled_run (w : World) (lib : Lib) (argv : List String) (ret : Int)
    (hcall : Call.av_buffersink_get_frame ret ∈ (main w lib argv).calls) (hret : 0 ≤ ret) :
    writesOf (main w lib argv).calls =
      [(0, int_mul (w.av_buffersink_get_frame.2.linesize 0) w.av_buffersink_get_frame.2.height),
       (1, int_mul (w.av_buffersink_get_frame.2.linesize 1) w.av_buffersink_get_frame.2.height),
       (2, int_mul (w.av_buffersink_get_frame.2.linesize 2) w.av_buffersink_get_frame.2.height),
       (3, int_mul (w.av_buffersink_get_frame.2.linesize 3) w.av_buffersink_get_frame.2.height)] := by
  have hp := main_path w lib argv
  generalize main w lib argv = r at hp hcall ⊢
  cases hp <;> simp_all [pipelineCalls, writesOf, write_loop_zero]
  all_goals omega

/-- A product computed in `int` lies in the range of `int`. -/
theorem int_mul_range (a b : Int) : -2 ^ 31 ≤ int_mul a b ∧ int_mul a b < 2 ^ 31 := by
  unfold int_mul wrap32
  omega

/-- Products that leave the range of `int` wrap around. -/
theorem int_mul_wraps :
    int_mul 65536 65536 = 0 ∧ int_mul 65536 32768 = -2147483648 ∧
      int_mul 65537 65536 = 65536 ∧ int_mul (-64) 64 = -4096 := by
  decide

/-- A write of a non-negative count that the file has room for is put in full and leaves
the stream good. -/
theorem ostream_write_accepted (room : Nat) (st : OStream) (n : Int)
    (hg : st.good = true) (h0 : 0 ≤ n) (h1 : n ≤ room) :
    ostream_write room st n = { good := true, bytes := st.bytes + n.toNat } := by
  have h2 : min n.toNat room = n.toNat := by omega
  have h3 : ((n.toNat : Nat) : Int) = n := Int.toNat_of_nonneg h0
  simp [ostream_write, hg, not_lt.mpr h0, h2, h3]

/-- A write of a negative count puts nothing and turns a good stream bad. -/
theorem ostream_write_negative (room : Nat) (st : OStream) (n : Int) (h : n < 0) :
    (ostream_write room st n).bytes = st.bytes ∧ (ostream_write room st n).good = false := by
  unfold ostream_write
  cases hg : st.good
  · simp [hg]
  · have hne : ¬ (0 : Int) = n := by omega
    simp [h, hne]

/-- C3, as amended: whenever the frame pull was made and succeeded, the plane loop issues
exactly four writes, for planes 0, 1, 2, 3 in that order, the write for plane `k`
requesting `linesize[k] * height` bytes, the product being taken in `int` and so lying
in the range of `int`. When each of these four counts is non-negative and the file has
room for it, the stream is still good after the loop and the number of bytes written to
the output file is the sum of `linesize[k] * height` over the first four planes. -/
theorem plane_loop_bytes_written (w : World) (lib : Lib) (argv : List String) (ret : Int)
    (hcall : Call.av_buffersink_get_frame ret ∈ (main w lib argv).calls) (hret : 0 ≤ ret) :
    writesOf (main w lib argv).calls =
        [(0, int_mul (w.av_buffersink_get_frame.2.linesize 0) w.av_buffersink_get_frame.2.height),
         (1, int_mul (w.av_buffersink_get_frame.2.linesize 1) w.av_buffersink_get_frame.2.height),
         (2, int_mul (w.av_buffersink_get_frame.2.linesize 2) w.av_buffersink_get_frame.2.height),
         (3, int_mul (w.av_buffersink_get_frame.2.linesize 3) w.av_buffersink_get_frame.2.height)] ∧
      (∀ x ∈ writesOf (main w lib argv).calls, -2 ^ 31 ≤ x.2 ∧ x.2 < 2 ^ 31) ∧
      ((∀ k < 4,
          0 ≤ int_mul (w.av_buffersink_get_frame.2.linesize k) w.av_buffersink_get_frame.2.height ∧
          int_mul (w.av_buffersink_get_frame.2.linesize k) w.av_buffersink_get_frame.2.height
            ≤ w.ofile_room k) →
        (ofile_of w (main w lib argv)).good = true ∧
        ((ofile_of w (main w lib argv)).bytes : Int) =
          ∑ k in Finset.range 4,
            int_mul (w.av_buffersink_get_frame.2.linesize k)
              w.av_buffersink_get_frame.2.height) := by
  have hw := writes_of_pulled_run w lib argv ret hcall hret
  refine ⟨hw, ?_, ?_⟩
  · intro x hx
    rw [hw] at hx
    simp only [List.mem_cons, List.mem_singleton, List.not_mem_nil, or_false] at hx
    rcases hx with rfl | rfl | rfl | rfl <;> exact int_mul_range _ _
  · intro hacc
    obtain ⟨a0, b0⟩ := hacc 0 (by decide)
    obtain ⟨a1, b1⟩ := hacc 1 (by decide)
    obtain ⟨a2, b2⟩ := hacc 2 (by decide)
    obtain ⟨a3, b3⟩ := hacc 3 (by decide)
    unfold ofile_of
    rw [hw]
    simp only [ofile_after]
    rw [ostream_write_accepted _ _ _ rfl a0 b0, ostream_write_accepted _ _ _ rfl a1 b1,
      ostream_write_accepted _ _ _ rfl a2 b2, ostream_write_accepted _ _ _ rfl a3 b3]
    refine ⟨rfl, ?_⟩
    simp only [Finset.sum_range_succ, Finset.sum_range_zero]
    push_cast
    omega

/-- Instance of C3 as amended: the all-success run of a 64x64 frame with strides
64, 32, 32, 64 writes 4096 + 2048 + 2048 + 4096 bytes. -/
theorem plane_loop_bytes_written_witness :
    Call.av_buffersink_get_frame 0 ∈ (main sampleWorld sampleLib sampleArgv).calls ∧
      writesOf (main sampleWorld sampleLib sampleArgv).calls =
        [(0, 4096), (1, 2048), (2, 2048), (3, 4096)] ∧
      (ofile_of sampleWorld (main sampleWorld sampleLib sampleArgv)).good = true ∧
      ((ofile_of sampleWorld (main sampleWorld sampleLib sampleArgv)).bytes : Int) = 12288 := by
  have h := plane_loop_bytes_written sampleWorld sampleLib sampleArgv 0 (by decide) (by decide)
  have hb := h.2.2 (by decide)
  refine ⟨(by decide), ?_, hb.1, ?_⟩
  · simpa using h.1
  · rw [hb.2]
    decide

/-- C3 as stated fails: in the run whose pulled frame has strides -64, 32, 32, 64 and
height 64, the pull succeeds, the first write requests -4096 bytes, which puts nothing
and turns the stream bad, so no byte reaches the output file, while the sum of
`linesize[k] * height` over the four planes is 4096. -/
theorem plane_bytes_written_counterexample :
    Call.av_buffersink_get_frame 0 ∈ (main negStrideWorld sampleLib sampleArgv).calls ∧
      (ofile_of negStrideWorld (main negStrideWorld sampleLib sampleArgv)).bytes = 0 ∧
      (∑ k in Finset.range 4,
        int_mul (negStrideWorld.av_buffersink_get_frame.2.linesize k)
          negStrideWorld.av_buffersink_get_frame.2.height) = 4096 ∧
      ((ofile_of negStrideWorld (main negStrideWorld sampleLib sampleArgv)).bytes : Int) ≠
        ∑ k in Finset.range 4,
          int_mul (negStrideWorld.av_buffersink_get_frame.2.linesize k)
            negStrideWorld.av_buffersink_get_frame.2.height := by
  have hw := writes_of_pulled_run negStrideWorld sampleLib sampleArgv 0 (by decide) (by decide)
  have hb : (ofile_of negStrideWorld (main negStrideWorld sampleLib sampleArgv)).bytes = 0 := by
    unfold ofile_of
    rw [hw]
    decide
  have hs : (∑ k in Finset.range 4,
      int_mul (negStrideWorld.av_buffersink_get_frame.2.linesize k)
        negStrideWorld.av_buffersink_get_frame.2.height) = 4096 := by
    simp only [Finset.sum_range_succ, Finset.sum_range_zero]
    decide
  refine ⟨(by decide), hb, hs, ?_⟩
  rw [hb, hs]
  decide

/-- C4: for a decoded frame of width `W`, height `H` and a pixel format named `F`, the
parameter string passed when creating the buffer source stage is exactly
`width=W:height=H:pix_fmt=F:time_base=1/25`, with `W` and `H` in decimal. -/
theorem buffer_source_arguments (w : World) (lib : Lib) (argv : List String)
    (filter name args F : String) (ret : Int) (f : AVFrame)
    (hcall : Call.avfilter_graph_create_filter .pBufferSrcCtx filter name args ret
      ∈ (main w lib argv).calls)
    (hf : (load_image w lib none (argv.getD 1 "")).apAVFrame = some f)
    (hF : lib.av_get_pix_fmt_name f.format = some F) :
    args = "width=" ++ toString f.width ++ ":height=" ++ toString f.height
      ++ ":pix_fmt=" ++ F ++ ":time_base=1/25" := by
  have hp := main_path w lib argv
  generalize main w lib argv = r at hp hcall ⊢
  cases hp <;> simp_all [pipelineCalls, bufferSrcArgs]

/-- Instance of C4: the 64x64 `yuva420p` frame of the sample run. -/
theorem buffer_source_arguments_witness :
    Call.avfilter_graph_create_filter .pBufferSrcCtx "buffer" "buffersrc"
        "width=64:height=64:pix_fmt=yuva420p:time_base=1/25" 0
        ∈ (main sampleWorld sampleLib sampleArgv).calls ∧
      "width=64:height=64:pix_fmt=yuva420p:time_base=1/25" =
        "width=" ++ toString sampleFrame.width ++ ":height=" ++ toString sampleFrame.height
          ++ ":pix_fmt=" ++ "yuva420p" ++ ":time_base=1/25" :=
  ⟨(by decide),
   buffer_source_arguments sampleWorld sampleLib sampleArgv "buffer" "buffersrc"
     "width=64:height=64:pix_fmt=yuva420p:time_base=1/25" "yuva420p" 0 sampleFrame
     (by decide) rfl rfl⟩

/-- C5: on every run that reaches graph configuration, the links made are exactly
buffer source → format, format → chromakey, chromakey → buffer sink, each from output
pad 0 to input pad 0 and each successful; no link enters the source, none leaves the
sink, and every stage has at most one predecessor and at most one successor. -/
theorem links_form_linear_chain (w : World) (lib : Lib) (argv : List String) (ret : Int)
    (hcall : Call.avfilter_graph_config ret ∈ (main w lib argv).calls) :
    linksOf (main w lib argv).calls =
        [⟨.pBufferSrcCtx, 0, .pFormatCtx, 0⟩, ⟨.pFormatCtx, 0, .pChromaKeyCtx, 0⟩,
         ⟨.pChromaKeyCtx, 0, .pBufferSinkCtx, 0⟩] ∧
      (∀ s sp d dp r, Call.avfilter_link s sp d dp r ∈ (main w lib argv).calls → 0 ≤ r) ∧
      (∀ l ∈ linksOf (main w lib argv).calls, l.dst ≠ .pBufferSrcCtx) ∧
      (∀ l ∈ linksOf (main w lib argv).calls, l.src ≠ .pBufferSinkCtx) ∧
      (∀ s : Stage, ((linksOf (main w lib argv).calls).filter (fun l => l.dst = s)).length ≤ 1 ∧
        ((linksOf (main w lib argv).calls).filter (fun l => l.src = s)).length ≤ 1) := by
  have hp := main_path w lib argv
  generalize main w lib argv = r at hp hcall ⊢
  cases hp <;> simp_all [pipelineCalls, linksOf]
  all_goals
    refine ⟨fun s sp d dp r h => ?_, fun s => ?_⟩
    · rcases h with ⟨_, _, _, _, rfl⟩ | ⟨_, _, _, _, rfl⟩ | ⟨_, _, _, _, rfl⟩ <;> assumption
    · cases s <;> decide

/-- Instance of C5: the all-success run configures the graph with the three links. -/
theorem links_form_linear_chain_witness :
    Call.avfilter_graph_config 0 ∈ (main sampleWorld sampleLib sampleArgv).calls ∧
      linksOf (main sampleWorld sampleLib sampleArgv).calls =
        [⟨.pBufferSrcCtx, 0, .pFormatCtx, 0⟩, ⟨.pFormatCtx, 0, .pChromaKeyCtx, 0⟩,
         ⟨.pChromaKeyCtx, 0, .pBufferSinkCtx, 0⟩] :=
  ⟨(by decide), (links_form_linear_chain sampleWorld sampleLib sampleArgv 0 (by decide)).1⟩

/-- C6: whenever `load_image` reaches the decoder open call, the decoder context passed to
it has `pix_fmt` and `sw_pix_fmt` equal to `AV_PIX_FMT_YUVA420P`, whatever the parameter
copy left in the context; the copy succeeded, and its call comes immediately before the
open call, the override lying between the two. In particular the open is never attempted
after a failed copy. -/
theorem decoder_opened_with_forced_format (w : World) (lib : Lib) (fr : Option AVFrame)
    (p : String) (ctx : AVCodecContext)
    (h : LEvent.avcodec_open2 ctx ∈ (load_image w lib fr p).events) :
    ctx.pix_fmt = lib.AV_PIX_FMT_YUVA420P ∧ ctx.sw_pix_fmt = lib.AV_PIX_FMT_YUVA420P ∧
      (∃ par, w.codecpar = some par ∧
        0 ≤ (w.avcodec_parameters_to_context w.avcodec_alloc_context3 par).1) ∧
      ∃ before after, (load_image w lib fr p).events =
        before ++ LEvent.avcodec_parameters_to_context :: LEvent.avcodec_open2 ctx :: after := by
  have hp := load_image_path w lib fr p
  generalize load_image w lib fr p = r at hp h ⊢
  have hens : LEvent.avcodec_open2 ctx ∉ (ensure_frame w fr).1 := by
    cases fr <;> simp [ensure_frame, unique_ptr_assign, release]
  cases hp <;> simp_all [eventsToRead, eventsToCopy]
  all_goals exact ⟨rfl, rfl, [_, _, _, _], _, rfl⟩

/-- Instance of C6: the sample stream carries format 2, the copy writes it into the
context, and the decoder is still opened with format 33, the sample `YUVA420P`. -/
theorem decoder_opened_with_forced_format_witness :
    LEvent.avcodec_open2 { skip_alpha := 0, pix_fmt := 33, sw_pix_fmt := 33 }
        ∈ (load_image sampleWorld sampleLib none "in.png").events ∧
      (sampleWorld.avcodec_parameters_to_context sampleWorld.avcodec_alloc_context3
        { codec_id := 61, format := 2 }).2.pix_fmt = 2 ∧
      (33 : Int) = sampleLib.AV_PIX_FMT_YUVA420P :=
  ⟨(by decide), (by decide),
   (decoder_opened_with_forced_format sampleWorld sampleLib none "in.png"
     { skip_alpha := 0, pix_fmt := 33, sw_pix_fmt := 33 } (by decide)).1⟩

/-- C7, evaluated at a failing input: creating the buffer sink fails with code `-22`,
which `error_code_to_string` translates to `Invalid argument`; `main` returns 1 and the
whole text on `std::cerr` is `Cannot create buffersink filter - code=-22`, which does not
contain the translation. -/
theorem buffersink_failure_diagnostic_lacks_cause :
    (main sinkFailWorld sampleLib sampleArgv).exit = some 1 ∧
      (main sinkFailWorld sampleLib sampleArgv).cerr
        = "Cannot create buffersink filter - code=-22\n" ∧
      error_code_to_string sampleLib (-22) = "Invalid argument" ∧
      ¬ Contains (main sinkFailWorld sampleLib sampleArgv).cerr
          (error_code_to_string sampleLib (-22)) := by
  decide

/-- C8: for every input path given together with an output path, if opening the
container fails, or it opens and no video stream is found, then `main` returns 1 and the
text on `std::cerr` contains the input path. -/
theorem unopenable_input_is_reported (w : World) (lib : Lib) (argv : List String)
    (hargs : 3 ≤ argv.length)
    (hfail : w.avformat_open_input < 0 ∨
      (0 ≤ w.avformat_open_input ∧ w.av_find_best_stream < 0)) :
    (main w lib argv).exit = some 1 ∧ Contains (main w lib argv).cerr (argv.getD 1 "") := by
  have hl : (load_image w lib none (argv.getD 1 "")).ret = false ∧
      Contains ((load_image w lib none (argv.getD 1 "")).cerr ++ ("Failed to load image. "
          ++ (load_image w lib none (argv.getD 1 "")).out_strError ++ "\n")) (argv.getD 1 "") := by
    rcases hfail with h | ⟨h, hs⟩
    · obtain ⟨h1, h2⟩ := load_image_open_failure w lib none (argv.getD 1 "") h
      refine ⟨h1, ?_⟩
      rw [h2]
      repeat (first | exact contains_self_append_left _ _ | apply contains_append_right)
    · obtain ⟨h1, h2⟩ := load_image_no_stream w lib none (argv.getD 1 "") h hs
      refine ⟨h1, ?_⟩
      rw [h2]
      apply contains_append_left
      apply contains_append_right
      apply contains_append_left
      apply contains_append_right
      exact contains_self_append_left _ _
  have hp := main_path w lib argv
  generalize main w lib argv = r at hp ⊢
  cases hp <;> first | omega | simp_all

/-- Instance of C8: `prog in.png out.raw` when the container cannot be opened. -/
theorem unopenable_input_is_reported_witness :
    3 ≤ sampleArgv.length ∧ noInputWorld.avformat_open_input < 0 ∧
      (main noInputWorld sampleLib sampleArgv).exit = some 1 ∧
      Contains (main noInputWorld sampleLib sampleArgv).cerr "in.png" :=
  ⟨(by decide), (by decide),
   unopenable_input_is_reported noInputWorld sampleLib sampleArgv (by decide)
     (Or.inl (by decide))⟩

/-- C9: on every path through `load_image`, the format context is closed exactly once
when the open succeeded and never otherwise; the codec context is freed exactly once
when its allocation was reached (which happens at most once) and never otherwise; the
packet is unreferenced exactly once when the packet read was made and succeeded and
never otherwise; and the caller's frame is never freed. -/
theorem load_image_releases_each_handle_once (w : World) (lib : Lib) (fr : Option AVFrame)
    (p : String) :
    (load_image w lib fr p).events.count .avformat_close_input =
        (if 0 ≤ w.avformat_open_input then 1 else 0) ∧
      (load_image w lib fr p).events.count .avcodec_free_context =
        (if LEvent.avcodec_alloc_context3 ∈ (load_image w lib fr p).events then 1 else 0) ∧
      (load_image w lib fr p).events.count .avcodec_alloc_context3 ≤ 1 ∧
      (load_image w lib fr p).events.count .av_packet_unref =
        (if LEvent.av_read_frame ∈ (load_image w lib fr p).events ∧ 0 ≤ w.av_read_frame
          then 1 else 0) ∧
      (load_image w lib fr p).events.count .av_frame_free = 0 := by
  have hp := load_image_path w lib fr p
  generalize load_image w lib fr p = r at hp ⊢
  have hens : ∀ e : LEvent, e ≠ .av_frame_alloc → (ensure_frame w fr).1.count e = 0 := by
    intro e he
    cases fr <;> simp [ensure_frame, unique_ptr_assign, release, List.count_cons, Ne.symm he]
  cases hp <;> simp_all [eventsToRead, eventsToCopy, List.count_cons]
  all_goals rw [if_neg (by omega)]

/-- C10: for each of the four stage creations, if the creation fails then the text on
`std::cerr` contains the parameter string that was passed to that creation call, and
`main` returns 1. -/
theorem stage_creation_failure_names_arguments (w : World) (lib : Lib) (argv : List String)
    (s : Stage) (filter name args : String) (ret : Int)
    (hcall : Call.avfilter_graph_create_filter s filter name args ret ∈ (main w lib argv).calls)
    (hret : ret < 0) :
    Contains (main w lib argv).cerr args ∧ (main w lib argv).exit = some 1 := by
  have hp := main_path w lib argv
  generalize main w lib argv = r at hp hcall ⊢
  cases hp <;> simp_all [pipelineCalls]
  all_goals
    casesm* _ ∨ _, _ ∧ _
  all_goals subst_vars
  all_goals
    first
    | omega
    | (apply contains_append_left
       repeat (first | exact contains_self_append_left _ _ | apply contains_append_right)
       all_goals decide)

/-- Instance of C10: creating the format stage fails with `-22`. -/
theorem stage_creation_failure_names_arguments_witness :
    Call.avfilter_graph_create_filter .pFormatCtx "format" "format" "pix_fmts=yuv422p" (-22)
        ∈ (main formatFailWorld sampleLib sampleArgv).calls ∧
      Contains (main formatFailWorld sampleLib sampleArgv).cerr "pix_fmts=yuv422p" ∧
      (main formatFailWorld sampleLib sampleArgv).exit = some 1 :=
  ⟨(by decide),
   stage_creation_failure_names_arguments formatFailWorld sampleLib sampleArgv .pFormatCtx
     "format" "format" "pix_fmts=yuv422p" (-22) (by decide) (by decide)⟩

end Chromakey
